import Mathlib

/-!
Shallow embedding of the Party-Game React frontend (AMIR-SHAHROKH/Party-Game).

The embedded code comes from:
  * src/frontend/src/components/PlayGame.tsx  — the round state machine
    (phases waiting / collecting / voting / finished, socket event handlers
    round_started / submissions_revealed / vote_update / round_finished, and the
    local actions hostStartRound / submitAnswer / reveal / vote);
  * src/frontend/src/components/GameRoom.tsx  — the room presence controller
    (roster state, socket event handlers connect / joined / player_list, and the
    local actions toggleReady / startGame / kickPlayer);
  * src/frontend/src/components/Lobby.tsx     — the lobby fetchGames handler.

React useState setters are modelled by explicit state passing: each handler is a
function from the component state (plus the event payload) to the new state, and
each local action returns the list of socket emissions together with the new
state.  JavaScript truthiness on numbers (0 and null are falsy) and on strings
(the empty string is falsy) is modelled explicitly at each guard.
-/

namespace PartyGame

/-- JavaScript String.prototype.trim, modelled over the character list:
leading and trailing whitespace characters are removed.  Defined structurally
so that the kernel can evaluate it on concrete strings. -/
def jsTrim (s : String) : String :=
  String.mk
    (((s.data.dropWhile Char.isWhitespace).reverse.dropWhile
        Char.isWhitespace).reverse)

/-- A roster entry, from the Player interface in GameRoom.tsx
(fields id, name, ready). -/
structure Player where
  id : Int
  name : String
  ready : Bool
deriving DecidableEq, Repr

/-- One anonymized answer, from the submission objects rendered in
PlayGame.tsx (fields submission_id, anon_id, text). -/
structure Submission where
  submission_id : Int
  anon_id : String
  text : String
deriving DecidableEq, Repr

/-- The four phases of the round state machine in PlayGame.tsx. -/
inductive Phase where
  | waiting
  | collecting
  | voting
  | finished
deriving DecidableEq, Repr

/-- A socket emission fired by one of the local actions.  Each constructor
carries exactly the payload fields the TypeScript code puts in the emit call. -/
inductive Emit where
  | start_round (game_id : Int)
  | submit_answer (round_id : Int) (text : String)
  | reveal_submissions (round_id : Option Int)
  | vote_submission (round_id : Option Int) (submission_id : Int)
  | start_game (game_id : Int)
  | toggle_ready (game_id : Int) (player_id : Int) (ready : Bool)
  | remove_player (game_id : Int) (player_id : Int)
deriving DecidableEq, Repr

/-! ### PlayGame.tsx: the round state machine -/

/-- The useState variables of the PlayGame component.  gameId is the Number(id)
route parameter used in every emit; voteCounts is the Record mapping submission
ids to counts, modelled as an association list. -/
structure PlayState where
  gameId : Int
  roundsTotal : Nat
  roundIndex : Nat
  question : Option String
  roundId : Option Int
  answerText : String
  submissions : List Submission
  voteCounts : List (Int × Nat)
  phase : Phase
deriving DecidableEq, Repr

/-- The initial PlayGame state: roundsTotal 10, roundIndex 0, question null,
roundId null, empty answer text, no submissions, empty tally, phase waiting. -/
def initPlay (gid : Int) : PlayState :=
  { gameId := gid
    roundsTotal := 10
    roundIndex := 0
    question := none
    roundId := none
    answerText := ""
    submissions := []
    voteCounts := []
    phase := Phase.waiting }

/-- The server-pushed events the PlayGame socket subscribes to.  The Option
payloads model fields the handlers guard with a JavaScript or-default
(data.submissions or [], data.counts or empty object). -/
inductive PlayEvent where
  | round_started (round_id : Int) (question : String)
  | submissions_revealed (submissions : Option (List Submission))
  | vote_update (counts : Option (List (Int × Nat)))
  | round_finished
deriving DecidableEq, Repr

/-- The event dispatch of PlayGame.tsx: round_started records round id and
question, moves to collecting, clears answer text, submissions, tally, and
increments roundIndex; submissions_revealed replaces the submission list
(defaulting to empty) and moves to voting; vote_update replaces the tally
(defaulting to empty); round_finished moves to finished. -/
def playStep (s : PlayState) (e : PlayEvent) : PlayState :=
  match e with
  | PlayEvent.round_started r q =>
      { s with roundId := some r
               question := some q
               phase := Phase.collecting
               answerText := ""
               submissions := []
               voteCounts := []
               roundIndex := s.roundIndex + 1 }
  | PlayEvent.submissions_revealed subs =>
      { s with submissions := subs.getD []
               phase := Phase.voting }
  | PlayEvent.vote_update counts =>
      { s with voteCounts := counts.getD [] }
  | PlayEvent.round_finished =>
      { s with phase := Phase.finished }

/-- Local action hostStartRound: emits start_round with the game id and leaves
the state untouched. -/
def hostStartRound (s : PlayState) : List Emit × PlayState :=
  ([Emit.start_round s.gameId], s)

/-- Local action submitAnswer: the guard is the JavaScript test
(!roundId or !answerText.trim()), so a null or zero round id, or an answer that
trims to the empty string, aborts with no emission and no state change;
otherwise it emits submit_answer with the trimmed text and clears the answer
buffer. -/
def submitAnswer (s : PlayState) : List Emit × PlayState :=
  match s.roundId with
  | none => ([], s)
  | some r =>
      if r = 0 ∨ jsTrim s.answerText = "" then ([], s)
      else ([Emit.submit_answer r (jsTrim s.answerText)],
            { s with answerText := "" })

/-- Local action reveal: emits reveal_submissions with the current (possibly
null) round id and leaves the state untouched. -/
def reveal (s : PlayState) : List Emit × PlayState :=
  ([Emit.reveal_submissions s.roundId], s)

/-- Local action vote: emits vote_submission with the current (possibly null)
round id and the chosen submission id, leaving the state untouched. -/
def vote (s : PlayState) (submission_id : Int) : List Emit × PlayState :=
  ([Emit.vote_submission s.roundId submission_id], s)

/-- Everything that can change the PlayGame state during a session: a server
event, the config load effect (setRoundsTotal of res.data.rounds or 10), typing
in the answer textarea, or one of the four local actions. -/
inductive Act where
  | ev (e : PlayEvent)
  | loadConfig (rounds : Option Nat)
  | setAnswer (t : String)
  | submitA
  | hostStartA
  | revealA
  | voteA (submission_id : Int)
deriving DecidableEq, Repr

/-- State effect of one Act; emissions are dropped here (they are observed
through the action functions themselves).  loadConfig models the JavaScript
or-default: a missing or zero rounds field becomes 10. -/
def applyAct (s : PlayState) (a : Act) : PlayState :=
  match a with
  | Act.ev e => playStep s e
  | Act.loadConfig r =>
      { s with roundsTotal := match r with
                              | some n => if n = 0 then 10 else n
                              | none => 10 }
  | Act.setAnswer t => { s with answerText := t }
  | Act.submitA => (submitAnswer s).2
  | Act.hostStartA => (hostStartRound s).2
  | Act.revealA => (reveal s).2
  | Act.voteA sid => (vote s sid).2

/-- Replay a list of acts from a state. -/
def runActs : PlayState → List Act → PlayState
  | s, [] => s
  | s, a :: rest => runActs (applyAct s a) rest

/-- An act is well-formed when any round_started event it carries has a nonzero
round id (server round ids are database keys, never 0). -/
def wfAct : Act → Bool
  | Act.ev (PlayEvent.round_started r _) => r != 0
  | _ => true

/-- All acts in the list are well-formed. -/
def wfActs (acts : List Act) : Bool :=
  acts.all wfAct

/-- A PlayGame state is reachable when some well-formed act sequence leads to it
from the initial state of some game id. -/
def ReachablePlay (s : PlayState) : Prop :=
  ∃ gid acts, wfActs acts = true ∧ runActs (initPlay gid) acts = s

/-- Invariant: in the collecting phase the stored round id is a nonzero
number. -/
def CollectingRoundId (s : PlayState) : Prop :=
  s.phase = Phase.collecting → ∃ r, s.roundId = some r ∧ r ≠ 0

/-- Whether an act is a round_started server event. -/
def isRoundStartedAct : Act → Bool
  | Act.ev (PlayEvent.round_started _ _) => true
  | _ => false

/-- Number of round_started events in an act list. -/
def countRoundStarted (acts : List Act) : Nat :=
  acts.countP (isRoundStartedAct ·)

/-- Whether an act is a vote_update server event. -/
def isVoteUpdateAct : Act → Bool
  | Act.ev (PlayEvent.vote_update _) => true
  | _ => false

/-- Whether an act is one of the three server events whose handler writes the
phase variable (round_started, submissions_revealed, round_finished). -/
def isPhaseEventAct : Act → Bool
  | Act.ev (PlayEvent.round_started _ _) => true
  | Act.ev (PlayEvent.submissions_revealed _) => true
  | Act.ev PlayEvent.round_finished => true
  | _ => false

/-! ### GameRoom.tsx: the room presence controller -/

/-- The useState variables of the GameRoom component.  gameId, host_player_id,
players and rounds form the Game record; playerId, playerName and isReady are
the remaining state hooks. -/
structure RoomState where
  gameId : Int
  host_player_id : Int
  players : List Player
  rounds : Option Nat
  playerId : Option Int
  playerName : String
  isReady : Bool
deriving DecidableEq, Repr

/-- The initial GameRoom state: game id from the route, host id 0, empty
roster, 10 rounds, no player id, name Player, not ready. -/
def initRoom (gid : Int) : RoomState :=
  { gameId := gid
    host_player_id := 0
    players := []
    rounds := some 10
    playerId := none
    playerName := "Player"
    isReady := false }

/-- The metadata fetch effect of GameRoom.tsx: setGame replaces id,
host_player_id, players and rounds wholesale from the REST response. -/
def fetchGameMeta (s : RoomState) (gid host : Int) (ps : List Player)
    (rounds : Option Nat) : RoomState :=
  { s with gameId := gid
           host_player_id := host
           players := ps
           rounds := rounds }

/-- The connect handler: stores the (prompted or cached) name and sets playerId
to storedId or null — the JavaScript or turns a stored 0 into null. -/
def onConnect (s : RoomState) (storedName : String) (storedId : Option Int) :
    RoomState :=
  { s with playerName := storedName
           playerId := match storedId with
                       | some n => if n = 0 then none else some n
                       | none => none }

/-- The joined handler: ignores a missing or zero player_id; otherwise records
the identity, drops any roster entry sharing the new id or the new name, and
appends a fresh not-ready entry.  isReady is not touched. -/
def onJoined (s : RoomState) (player_id : Int) (name : String) : RoomState :=
  if player_id = 0 then s
  else
    { s with playerId := some player_id
             playerName := name
             players :=
               s.players.filter (fun p => p.id ≠ player_id ∧ p.name ≠ name)
                 ++ [{ id := player_id, name := name, ready := false }] }

/-- Roster part of the player_list handler: every existing entry is updated in
place from the first payload entry with the same id (name and ready flag),
entries with no payload match are kept unchanged, and payload entries whose id
is not yet in the roster are appended. -/
def mergePlayers (prev payload : List Player) : List Player :=
  (prev.map fun p =>
    match payload.find? (fun dp => dp.id == p.id) with
    | some u => { p with ready := u.ready, name := u.name }
    | none => p)
  ++ payload.filter (fun dp => ! prev.any (fun p => p.id == dp.id))

/-- The player_list handler: merges the roster, and, when the local player id
is truthy and the payload holds an entry with that id, re-derives isReady and
playerName from that entry. -/
def onPlayerList (s : RoomState) (payload : List Player) : RoomState :=
  let s1 := { s with players := mergePlayers s.players payload }
  match s.playerId with
  | none => s1
  | some pid =>
      if pid = 0 then s1
      else
        match payload.find? (fun p => p.id == pid) with
        | some me => { s1 with isReady := me.ready, playerName := me.name }
        | none => s1

/-- Local action toggleReady: a falsy playerId (null or 0) aborts; otherwise
every roster entry with the local id gets ready set to the negation of the
cached isReady flag, the cached flag is negated, and toggle_ready is emitted
with the new value. -/
def toggleReady (s : RoomState) : List Emit × RoomState :=
  match s.playerId with
  | none => ([], s)
  | some pid =>
      if pid = 0 then ([], s)
      else
        ([Emit.toggle_ready s.gameId pid (!s.isReady)],
         { s with players :=
                    s.players.map fun p =>
                      if p.id = pid then { p with ready := !s.isReady } else p
                  isReady := !s.isReady })

/-- Local action startGame: a falsy playerId or a non-host caller aborts;
otherwise start_game is emitted.  No state field is ever written. -/
def startGame (s : RoomState) : List Emit × RoomState :=
  match s.playerId with
  | none => ([], s)
  | some pid =>
      if pid = 0 ∨ pid ≠ s.host_player_id then ([], s)
      else ([Emit.start_game s.gameId], s)

/-- Local action kickPlayer: only the host emits remove_player; no state
change either way. -/
def kickPlayer (s : RoomState) (kickId : Int) : List Emit × RoomState :=
  match s.playerId with
  | none => ([], s)
  | some pid =>
      if pid = s.host_player_id then
        ([Emit.remove_player s.gameId kickId], s)
      else ([], s)

/-- Everything that can change the GameRoom state: the metadata fetch effect,
the three socket handlers, and the two state-writing local actions. -/
inductive RoomAct where
  | fetchMeta (gid host : Int) (players : List Player) (rounds : Option Nat)
  | connect (storedName : String) (storedId : Option Int)
  | joined (player_id : Int) (name : String)
  | playerList (players : List Player)
  | toggleA
  | startA
  | kickA (kickId : Int)
deriving DecidableEq, Repr

/-- State effect of one RoomAct (emissions dropped). -/
def roomApply (s : RoomState) (a : RoomAct) : RoomState :=
  match a with
  | RoomAct.fetchMeta g h ps r => fetchGameMeta s g h ps r
  | RoomAct.connect n i => onConnect s n i
  | RoomAct.joined p n => onJoined s p n
  | RoomAct.playerList ps => onPlayerList s ps
  | RoomAct.toggleA => (toggleReady s).2
  | RoomAct.startA => (startGame s).2
  | RoomAct.kickA k => (kickPlayer s k).2

/-- Replay a list of room acts from a state. -/
def roomRun : RoomState → List RoomAct → RoomState
  | s, [] => s
  | s, a :: rest => roomRun (roomApply s a) rest

/-! ### Lobby.tsx: the games fetch -/

/-- An open-game summary, from the GameInfo interface of the api module. -/
structure GameInfo where
  game_id : String
  host_name : String
  players_count : Nat
deriving DecidableEq, Repr

/-- The Lobby useState variables relevant to listing games. -/
structure LobbyState where
  nameInput : String
  games : List GameInfo
  loading : Bool
  error : Option String
deriving DecidableEq, Repr

/-- Outcome of the getGames HTTP call: a response whose data.games field may be
absent, or a network failure. -/
abbrev FetchOutcome := Except Unit (Option (List GameInfo))

/-- The fetchGames handler of Lobby.tsx: on success the games state becomes
response.data.games or the empty list when that field is absent; on failure the
catch block records an error message and sets the games state to the empty
list. -/
def fetchGames (s : LobbyState) (r : FetchOutcome) : LobbyState :=
  match r with
  | Except.ok d => { s with games := d.getD [] }
  | Except.error _ =>
      { s with error := some "Failed to fetch games", games := [] }

/-! ### Concrete states used by witnesses and counterexamples -/

/-- A sample anonymized submission. -/
def subA : Submission := { submission_id := 101, anon_id := "A", text := "chips" }

/-- A collecting-phase state with a typed answer: round 7 started, then the
player typed chips into the textarea. -/
def c6state : PlayState :=
  runActs (initPlay 1)
    [Act.ev (PlayEvent.round_started 7 "Favorite snack?"),
     Act.setAnswer "chips"]

/-- A voting-phase state with a nonempty vote tally: round 7 started,
submissions were revealed, and one vote_update arrived. -/
def c2state : PlayState :=
  runActs (initPlay 1)
    [Act.ev (PlayEvent.round_started 7 "Favorite snack?"),
     Act.ev (PlayEvent.submissions_revealed (some [subA])),
     Act.ev (PlayEvent.vote_update (some [(101, 1)]))]

/-- A room whose roster was populated by a single player_list event carrying
player 1. -/
def c1state : RoomState :=
  roomRun (initRoom 42)
    [RoomAct.playerList [{ id := 1, name := "Alex", ready := false }]]

/-- A room where the local player (id 1) is the host and the roster, loaded
from the metadata fetch, holds only that one player, marked ready. -/
def c3state : RoomState :=
  roomRun (initRoom 42)
    [RoomAct.connect "Alex" (some 1),
     RoomAct.fetchMeta 42 1 [{ id := 1, name := "Alex", ready := true }]
       (some 10)]

/-- A room where the metadata fetch reports the local player (id 1) as ready
while the cached isReady flag is still false: a reachable cache-roster
desynchronization. -/
def c10state : RoomState :=
  roomRun (initRoom 42)
    [RoomAct.connect "Alex" (some 1),
     RoomAct.fetchMeta 42 5 [{ id := 1, name := "Alex", ready := true }]
       (some 10)]

/-- A sample player_list payload carrying a single new player. -/
def samPayload : List Player := [{ id := 2, name := "Sam", ready := true }]

/-- A lobby state that currently shows one game. -/
def lobby0 : LobbyState :=
  { nameInput := ""
    games := [{ game_id := "42", host_name := "Alex", players_count := 2 }]
    loading := false
    error := none }

/-! ### Helper lemmas about the round state machine -/

/-- submitAnswer either leaves the state untouched or only clears the answer
buffer. -/
lemma submitAnswer_snd (s : PlayState) :
    (submitAnswer s).2 = s ∨ (submitAnswer s).2 = { s with answerText := "" } := by
  cases h : s.roundId with
  | none => exact Or.inl (by simp [submitAnswer, h])
  | some r =>
      by_cases hc : r = 0 ∨ jsTrim s.answerText = ""
      · exact Or.inl (by simp [submitAnswer, h, hc])
      · exact Or.inr (by simp [submitAnswer, h, hc])

/-- submitAnswer never changes the phase. -/
lemma submitAnswer_phase (s : PlayState) :
    (submitAnswer s).2.phase = s.phase := by
  rcases submitAnswer_snd s with h | h <;> rw [h]

/-- submitAnswer never changes the stored round id. -/
lemma submitAnswer_roundId (s : PlayState) :
    (submitAnswer s).2.roundId = s.roundId := by
  rcases submitAnswer_snd s with h | h <;> rw [h]

/-- submitAnswer never changes the round counter. -/
lemma submitAnswer_roundIndex (s : PlayState) :
    (submitAnswer s).2.roundIndex = s.roundIndex := by
  rcases submitAnswer_snd s with h | h <;> rw [h]

/-- submitAnswer never changes the vote tally. -/
lemma submitAnswer_voteCounts (s : PlayState) :
    (submitAnswer s).2.voteCounts = s.voteCounts := by
  rcases submitAnswer_snd s with h | h <;> rw [h]

/-- One act raises the round counter by one exactly when it is a round_started
event, and leaves it unchanged otherwise. -/
lemma applyAct_roundIndex (s : PlayState) (a : Act) :
    (applyAct s a).roundIndex =
      s.roundIndex + (if isRoundStartedAct a then 1 else 0) := by
  cases a with
  | ev e => cases e <;> simp [applyAct, playStep, isRoundStartedAct]
  | loadConfig r => simp [applyAct, isRoundStartedAct]
  | setAnswer t => simp [applyAct, isRoundStartedAct]
  | submitA => simp [applyAct, isRoundStartedAct, submitAnswer_roundIndex]
  | hostStartA => simp [applyAct, hostStartRound, isRoundStartedAct]
  | revealA => simp [applyAct, reveal, isRoundStartedAct]
  | voteA sid => simp [applyAct, vote, isRoundStartedAct]

/-- Replaying an act list adds exactly the number of round_started events to
the round counter. -/
lemma runActs_roundIndex (acts : List Act) :
    ∀ s : PlayState,
      (runActs s acts).roundIndex = s.roundIndex + countRoundStarted acts := by
  induction acts with
  | nil => intro s; simp [runActs, countRoundStarted]
  | cons a rest ih =>
      intro s
      rw [runActs, ih, applyAct_roundIndex]
      unfold countRoundStarted
      rw [List.countP_cons]
      cases h : isRoundStartedAct a
      · simp [h]
      · simp [h]; omega

/-- The round counter never decreases along any act sequence. -/
lemma roundIndex_mono (s : PlayState) (acts : List Act) :
    s.roundIndex ≤ (runActs s acts).roundIndex := by
  rw [runActs_roundIndex]
  exact Nat.le_add_right _ _

/-- An act that is not one of the three phase-writing server events leaves the
phase unchanged. -/
lemma applyAct_phase (s : PlayState) (a : Act)
    (h : isPhaseEventAct a = false) : (applyAct s a).phase = s.phase := by
  cases a with
  | ev e =>
      cases e with
      | round_started r q => simp [isPhaseEventAct] at h
      | submissions_revealed subs => simp [isPhaseEventAct] at h
      | vote_update c => simp [applyAct, playStep]
      | round_finished => simp [isPhaseEventAct] at h
  | loadConfig r => simp [applyAct]
  | setAnswer t => simp [applyAct]
  | submitA => exact submitAnswer_phase s
  | hostStartA => simp [applyAct, hostStartRound]
  | revealA => simp [applyAct, reveal]
  | voteA sid => simp [applyAct, vote]

/-- An act that is not a vote_update event keeps an empty vote tally empty. -/
lemma applyAct_voteCounts_nil (s : PlayState) (a : Act)
    (ha : isVoteUpdateAct a = false) (hs : s.voteCounts = []) :
    (applyAct s a).voteCounts = [] := by
  cases a with
  | ev e =>
      cases e with
      | round_started r q => simp [applyAct, playStep]
      | submissions_revealed subs => simpa [applyAct, playStep] using hs
      | vote_update c => simp [isVoteUpdateAct] at ha
      | round_finished => simpa [applyAct, playStep] using hs
  | loadConfig r => simpa [applyAct] using hs
  | setAnswer t => simpa [applyAct] using hs
  | submitA => rw [applyAct, submitAnswer_voteCounts]; exact hs
  | hostStartA => simpa [applyAct, hostStartRound] using hs
  | revealA => simpa [applyAct, reveal] using hs
  | voteA sid => simpa [applyAct, vote] using hs

/-- A vote tally that is empty stays empty along any act sequence containing no
vote_update event. -/
lemma runActs_voteCounts_nil (acts : List Act) :
    ∀ s : PlayState,
      acts.all (fun a => !isVoteUpdateAct a) = true → s.voteCounts = [] →
      (runActs s acts).voteCounts = [] := by
  induction acts with
  | nil => intro s _ hs; simpa [runActs] using hs
  | cons a rest ih =>
      intro s hall hs
      rw [List.all_cons, Bool.and_eq_true] at hall
      rw [runActs]
      exact ih _ hall.2
        (applyAct_voteCounts_nil s a (by simpa using hall.1) hs)

/-- One well-formed act preserves the collecting-phase round-id invariant. -/
lemma applyAct_collectingInv (s : PlayState) (a : Act)
    (hwf : wfAct a = true) (h : CollectingRoundId s) :
    CollectingRoundId (applyAct s a) := by
  cases a with
  | ev e =>
      cases e with
      | round_started r q =>
          intro _
          refine ⟨r, by simp [applyAct, playStep], ?_⟩
          simpa [wfAct] using hwf
      | submissions_revealed subs =>
          intro hp; simp [applyAct, playStep] at hp
      | vote_update c =>
          intro hp
          obtain ⟨r, hr, hr0⟩ := h (by simpa [applyAct, playStep] using hp)
          exact ⟨r, by simpa [applyAct, playStep] using hr, hr0⟩
      | round_finished =>
          intro hp; simp [applyAct, playStep] at hp
  | loadConfig r =>
      intro hp
      obtain ⟨r0, hr, hr0⟩ := h (by simpa [applyAct] using hp)
      exact ⟨r0, by simpa [applyAct] using hr, hr0⟩
  | setAnswer t =>
      intro hp
      obtain ⟨r0, hr, hr0⟩ := h (by simpa [applyAct] using hp)
      exact ⟨r0, by simpa [applyAct] using hr, hr0⟩
  | submitA =>
      intro hp
      rw [applyAct, submitAnswer_phase] at hp
      obtain ⟨r0, hr, hr0⟩ := h hp
      refine ⟨r0, ?_, hr0⟩
      rw [applyAct, submitAnswer_roundId]
      exact hr
  | hostStartA =>
      intro hp
      obtain ⟨r0, hr, hr0⟩ := h (by simpa [applyAct, hostStartRound] using hp)
      exact ⟨r0, by simpa [applyAct, hostStartRound] using hr, hr0⟩
  | revealA =>
      intro hp
      obtain ⟨r0, hr, hr0⟩ := h (by simpa [applyAct, reveal] using hp)
      exact ⟨r0, by simpa [applyAct, reveal] using hr, hr0⟩
  | voteA sid =>
      intro hp
      obtain ⟨r0, hr, hr0⟩ := h (by simpa [applyAct, vote] using hp)
      exact ⟨r0, by simpa [applyAct, vote] using hr, hr0⟩

/-- A well-formed act sequence preserves the collecting-phase round-id
invariant. -/
lemma runActs_collectingInv (acts : List Act) :
    ∀ s : PlayState, wfActs acts = true → CollectingRoundId s →
      CollectingRoundId (runActs s acts) := by
  induction acts with
  | nil => intro s _ h; simpa [runActs] using h
  | cons a rest ih =>
      intro s hwf h
      rw [wfActs, List.all_cons, Bool.and_eq_true] at hwf
      rw [runActs]
      exact ih _ hwf.2 (applyAct_collectingInv s a hwf.1 h)

/-- Every reachable PlayGame state satisfies the collecting-phase round-id
invariant. -/
lemma reachable_collectingInv (s : PlayState) (h : ReachablePlay s) :
    CollectingRoundId s := by
  obtain ⟨gid, acts, hwf, rfl⟩ := h
  refine runActs_collectingInv acts _ hwf ?_
  intro hp
  simp [initPlay] at hp

/-! ### Claim theorems: the round state machine -/

/-- C4: handling a round_started event clears the prior submission list and
vote tally, records the event's round id and question text, sets the phase to
collecting, and increments the local round counter by exactly 1; across an
entire session the round counter never decreases. -/
theorem round_started_effect (s : PlayState) (r : Int) (q : String) :
    ((playStep s (PlayEvent.round_started r q)).submissions = []
      ∧ (playStep s (PlayEvent.round_started r q)).voteCounts = []
      ∧ (playStep s (PlayEvent.round_started r q)).roundId = some r
      ∧ (playStep s (PlayEvent.round_started r q)).question = some q
      ∧ (playStep s (PlayEvent.round_started r q)).phase = Phase.collecting
      ∧ (playStep s (PlayEvent.round_started r q)).roundIndex
          = s.roundIndex + 1)
    ∧ ∀ acts : List Act, s.roundIndex ≤ (runActs s acts).roundIndex :=
  ⟨⟨rfl, rfl, rfl, rfl, rfl, rfl⟩, fun acts => roundIndex_mono s acts⟩

/-- C5 amended: the round sequence index is monotonically nondecreasing and
equals the starting index plus the number of round_started events handled, but
the client imposes no roundsTotal bound on it. -/
theorem roundIndex_monotone_unbounded (s : PlayState) (acts : List Act) :
    (runActs s acts).roundIndex = s.roundIndex + countRoundStarted acts
    ∧ s.roundIndex ≤ (runActs s acts).roundIndex :=
  ⟨runActs_roundIndex acts s, roundIndex_mono s acts⟩

/-- C5 counterexample: after eleven round_started events the round counter is
11 while roundsTotal still holds its configured value 10, so the round index
exceeds the configured round count, refuting the claimed bound. -/
theorem roundIndex_exceeds_roundsTotal :
    (runActs (initPlay 1)
        (List.replicate 11
          (Act.ev (PlayEvent.round_started 7 "q")))).roundsTotal = 10
    ∧ (runActs (initPlay 1)
        (List.replicate 11
          (Act.ev (PlayEvent.round_started 7 "q")))).roundIndex = 11 := by
  constructor <;> rfl

/-- C2 amended: handling submissions_revealed sets the phase to voting and
replaces the local submission list wholesale with the event payload (empty when
the payload field is absent), but leaves the vote tally unchanged rather than
resetting it; an empty tally does stay empty until the first subsequent
vote_update. -/
theorem submissions_revealed_effect (s : PlayState)
    (subs : Option (List Submission)) :
    (playStep s (PlayEvent.submissions_revealed subs)).phase = Phase.voting
    ∧ (playStep s (PlayEvent.submissions_revealed subs)).submissions
        = subs.getD []
    ∧ (playStep s (PlayEvent.submissions_revealed subs)).voteCounts
        = s.voteCounts
    ∧ (s.voteCounts = [] →
        ∀ acts : List Act, acts.all (fun a => !isVoteUpdateAct a) = true →
          (runActs (playStep s (PlayEvent.submissions_revealed subs))
              acts).voteCounts = []) := by
  refine ⟨rfl, rfl, rfl, fun hs acts hall => ?_⟩
  exact runActs_voteCounts_nil acts _ hall (by simpa [playStep] using hs)

/-- C2 witness: from the initial state (empty tally), after a
submissions_revealed event followed by a round_finished event the tally is
still empty. -/
theorem submissions_revealed_effect_witness :
    ((initPlay 1).voteCounts = []
      ∧ ([Act.ev PlayEvent.round_finished].all
          (fun a => !isVoteUpdateAct a)) = true)
    ∧ (runActs
        (playStep (initPlay 1) (PlayEvent.submissions_revealed (some [subA])))
        [Act.ev PlayEvent.round_finished]).voteCounts = [] :=
  ⟨⟨rfl, by decide⟩,
   (submissions_revealed_effect (initPlay 1) (some [subA])).2.2.2 rfl
     [Act.ev PlayEvent.round_finished] (by decide)⟩

/-- C2 counterexample: in the reachable state c2state the vote tally holds one
entry; handling a further submissions_revealed event leaves the tally at that
entry instead of resetting it to empty, although no vote_update has arrived
after the event — refuting the claim that the tally is empty after every
submissions_revealed until the next vote_update. -/
theorem submissions_revealed_keeps_tally :
    (playStep c2state
        (PlayEvent.submissions_revealed (some [subA]))).voteCounts
      = [(101, 1)] := by rfl

/-- C6: submitting an answer whose text trims to empty is a pure client-side
no-op (no emission, no state change); in any reachable collecting-phase state
with a nonempty trimmed answer, submitAnswer emits exactly one submit_answer
event carrying the current round id and the trimmed text and clears the answer
buffer; and submitAnswer never changes the phase. -/
theorem submitAnswer_validation (s : PlayState) :
    (jsTrim s.answerText = "" → submitAnswer s = ([], s))
    ∧ (ReachablePlay s → s.phase = Phase.collecting →
        jsTrim s.answerText ≠ "" →
        ∃ r, s.roundId = some r ∧ r ≠ 0 ∧
          submitAnswer s =
            ([Emit.submit_answer r (jsTrim s.answerText)],
             { s with answerText := "" }))
    ∧ (submitAnswer s).2.phase = s.phase := by
  refine ⟨?_, ?_, submitAnswer_phase s⟩
  · intro ht
    cases h : s.roundId with
    | none => simp [submitAnswer, h]
    | some r => simp [submitAnswer, h, ht]
  · intro hreach hphase htrim
    obtain ⟨r, hr, hr0⟩ := reachable_collectingInv s hreach hphase
    refine ⟨r, hr, hr0, ?_⟩
    simp [submitAnswer, hr, hr0, htrim]

/-- C6 witness: the concrete reachable state c6state (round 7 started, answer
text chips) satisfies the hypotheses, and submitAnswer there emits the
submission and clears the buffer. -/
theorem submitAnswer_validation_witness :
    (ReachablePlay c6state ∧ c6state.phase = Phase.collecting
      ∧ jsTrim c6state.answerText ≠ "")
    ∧ (∃ r, c6state.roundId = some r ∧ r ≠ 0 ∧
        submitAnswer c6state =
          ([Emit.submit_answer r (jsTrim c6state.answerText)],
           { c6state with answerText := "" })) := by
  have hreach : ReachablePlay c6state :=
    ⟨1, [Act.ev (PlayEvent.round_started 7 "Favorite snack?"),
         Act.setAnswer "chips"], by decide, rfl⟩
  exact ⟨⟨hreach, rfl, by decide⟩,
    (submitAnswer_validation c6state).2.1 hreach rfl (by decide)⟩

/-- C7: the local actions hostStartRound, reveal and vote only emit a request
and leave the whole state (hence the phase, and for vote the vote tally)
unchanged; and no act other than the three phase-writing server events
round_started, submissions_revealed and round_finished ever changes the
phase. -/
theorem local_actions_request_only (s : PlayState) :
    (hostStartRound s).2 = s
    ∧ (reveal s).2 = s
    ∧ (∀ sid : Int, (vote s sid).2 = s
        ∧ ((vote s sid).2).voteCounts = s.voteCounts)
    ∧ (∀ a : Act, isPhaseEventAct a = false →
        (applyAct s a).phase = s.phase) :=
  ⟨rfl, rfl, fun _ => ⟨rfl, rfl⟩, fun a h => applyAct_phase s a h⟩

/-- C7 witness: at the initial state, submitting (a non-phase act) and voting
keep the phase, and hostStartRound returns the state untouched. -/
theorem local_actions_request_only_witness :
    (isPhaseEventAct Act.submitA = false)
    ∧ (hostStartRound (initPlay 2)).2 = initPlay 2
    ∧ (applyAct (initPlay 2) Act.submitA).phase = (initPlay 2).phase :=
  ⟨by decide, (local_actions_request_only (initPlay 2)).1,
   (local_actions_request_only (initPlay 2)).2.2.2 Act.submitA (by decide)⟩

/-- C9: when no round_started event has been handled yet (round id null),
submitAnswer emits nothing and leaves the whole state, including the answer
buffer, unchanged. -/
theorem submitAnswer_no_round (s : PlayState) (h : s.roundId = none) :
    submitAnswer s = ([], s) := by
  simp [submitAnswer, h]

/-- C9 witness: in the initial state with a typed answer but no round yet,
submitAnswer is a no-op. -/
theorem submitAnswer_no_round_witness :
    (runActs (initPlay 3) [Act.setAnswer "hello"]).roundId = none
    ∧ submitAnswer (runActs (initPlay 3) [Act.setAnswer "hello"]) =
        ([], runActs (initPlay 3) [Act.setAnswer "hello"]) :=
  ⟨rfl, submitAnswer_no_round _ rfl⟩

/-! ### Helper lemmas about the room presence controller -/

/-- The roster produced by onPlayerList is exactly the mergePlayers merge; the
readiness re-derivation touches only isReady and playerName. -/
lemma onPlayerList_players (s : RoomState) (payload : List Player) :
    (onPlayerList s payload).players = mergePlayers s.players payload := by
  cases hp : s.playerId with
  | none => simp [onPlayerList, hp]
  | some pid =>
      by_cases h0 : pid = 0
      · simp [onPlayerList, hp, h0]
      · cases hf : payload.find? (fun p => p.id == pid) with
        | none => simp [onPlayerList, hp, h0, hf]
        | some me => simp [onPlayerList, hp, h0, hf]

/-- A previous roster entry with a payload match ends up in the merge updated
to the payload's name and ready flag. -/
lemma mem_merge_of_update (prev payload : List Player) (p u : Player)
    (hp : p ∈ prev)
    (hu : payload.find? (fun dp => dp.id == p.id) = some u) :
    { p with ready := u.ready, name := u.name } ∈ mergePlayers prev payload := by
  unfold mergePlayers
  apply List.mem_append_left
  have h := List.mem_map_of_mem (fun q =>
      match payload.find? (fun dp => dp.id == q.id) with
      | some v => { q with ready := v.ready, name := v.name }
      | none => q) hp
  simpa [hu] using h

/-- A previous roster entry with no payload match survives the merge
unchanged. -/
lemma mem_merge_of_keep (prev payload : List Player) (p : Player)
    (hp : p ∈ prev)
    (hnone : payload.find? (fun dp => dp.id == p.id) = none) :
    p ∈ mergePlayers prev payload := by
  unfold mergePlayers
  apply List.mem_append_left
  have h := List.mem_map_of_mem (fun q =>
      match payload.find? (fun dp => dp.id == q.id) with
      | some v => { q with ready := v.ready, name := v.name }
      | none => q) hp
  simpa [hnone] using h

/-- A payload entry whose id is new to the roster is appended verbatim. -/
lemma mem_merge_of_new (prev payload : List Player) (dp : Player)
    (hdp : dp ∈ payload)
    (hnew : prev.any (fun p => p.id == dp.id) = false) :
    dp ∈ mergePlayers prev payload := by
  unfold mergePlayers
  apply List.mem_append_right
  rw [List.mem_filter]
  exact ⟨hdp, by simp [hnew]⟩

/-! ### Claim theorems: the room presence controller and the lobby -/

/-- C1 amended: for a player_list event whose payload carries pairwise distinct
ids, after the event every payload player appears in the local roster with the
payload's name and ready flag; but a roster entry whose id is absent from the
payload is retained unchanged rather than removed — stale entries do survive
the reconciliation. -/
theorem playerList_reconciliation (s : RoomState) (payload : List Player)
    (hnd : (payload.map Player.id).Nodup) :
    (∀ dp ∈ payload, ∃ q ∈ (onPlayerList s payload).players,
        q.id = dp.id ∧ q.name = dp.name ∧ q.ready = dp.ready)
    ∧ (∀ p ∈ s.players, p.id ∉ payload.map Player.id →
        p ∈ (onPlayerList s payload).players) := by
  constructor
  · intro dp hdp
    rw [onPlayerList_players]
    by_cases hmem : ∃ p ∈ s.players, p.id = dp.id
    · obtain ⟨p, hp, hpid⟩ := hmem
      have hsome : (payload.find? (fun u => u.id == p.id)).isSome := by
        rw [List.find?_isSome]
        exact ⟨dp, hdp, by simp [hpid]⟩
      obtain ⟨u, hu⟩ := Option.isSome_iff_exists.mp hsome
      have humem : u ∈ payload := List.mem_of_find?_eq_some hu
      have huid : u.id = p.id := by simpa using List.find?_some hu
      have hud : u = dp :=
        List.inj_on_of_nodup_map hnd humem hdp (by rw [huid, hpid])
      subst hud
      exact ⟨{ p with ready := u.ready, name := u.name },
        mem_merge_of_update s.players payload p u hp hu,
        by simpa using hpid, rfl, rfl⟩
    · push_neg at hmem
      have hnew : s.players.any (fun p => p.id == dp.id) = false := by
        rw [List.any_eq_false]
        intro p hp
        simpa using hmem p hp
      exact ⟨dp, mem_merge_of_new s.players payload dp hdp hnew, rfl, rfl, rfl⟩
  · intro p hp hid
    rw [onPlayerList_players]
    refine mem_merge_of_keep s.players payload p hp ?_
    rw [List.find?_eq_none]
    intro u hu
    simp only [bne_iff_ne, ne_eq, beq_iff_eq]
    intro huid
    exact hid (huid ▸ List.mem_map_of_mem Player.id hu)

/-- C1 witness: delivering the payload with the new player Sam (id 2) to
c1state yields a roster in which Sam appears with the payload's name and ready
flag, and the stale entry for player 1 survives. -/
theorem playerList_reconciliation_witness :
    ((samPayload.map Player.id).Nodup)
    ∧ (∀ dp ∈ samPayload, ∃ q ∈ (onPlayerList c1state samPayload).players,
        q.id = dp.id ∧ q.name = dp.name ∧ q.ready = dp.ready)
    ∧ (∀ p ∈ c1state.players, p.id ∉ samPayload.map Player.id →
        p ∈ (onPlayerList c1state samPayload).players) := by
  have h := playerList_reconciliation c1state samPayload (by decide)
  exact ⟨by decide, h.1, h.2⟩

/-- C1 counterexample: the roster of c1state holds player 1; delivering a
player_list event with an empty payload leaves player 1 in the roster even
though that player is absent from the payload, refuting the claim that no
player absent from the most recent payload remains in the local roster. -/
theorem playerList_stale_entry_survives :
    (onPlayerList c1state []).players
      = [{ id := 1, name := "Alex", ready := false }] := by
  rfl

/-- C3 amended: startGame never changes local state, and it emits start_game
exactly when the local player id is truthy and equals the host id — there is no
client-side minimum-roster check, so the roster size does not matter. -/
theorem startGame_guard (s : RoomState) :
    (startGame s).2 = s
    ∧ ((startGame s).1 ≠ [] ↔
        ∃ pid, s.playerId = some pid ∧ pid ≠ 0
          ∧ pid = s.host_player_id) := by
  constructor
  · cases hp : s.playerId with
    | none => simp [startGame, hp]
    | some pid =>
        by_cases hc : pid = 0 ∨ pid ≠ s.host_player_id
        · simp [startGame, hp, hc]
        · simp [startGame, hp, hc]
  · constructor
    · intro hne
      cases hp : s.playerId with
      | none => exact absurd (by simp [startGame, hp]) hne
      | some pid =>
          by_cases hc : pid = 0 ∨ pid ≠ s.host_player_id
          · exact absurd (by simp [startGame, hp, hc]) hne
          · rw [not_or, not_not] at hc
            exact ⟨pid, rfl, hc.1, hc.2⟩
    · rintro ⟨pid, hp, h0, hh⟩
      have hng : ¬(pid = 0 ∨ pid ≠ s.host_player_id) := by
        rw [not_or, not_not]
        exact ⟨h0, hh⟩
      simp [startGame, hp, hng]

/-- C3 witness: the guard characterization instantiated at the reachable
one-player host state c3state. -/
theorem startGame_guard_witness :
    (startGame c3state).2 = c3state
    ∧ ((startGame c3state).1 ≠ [] ↔
        ∃ pid, c3state.playerId = some pid ∧ pid ≠ 0
          ∧ pid = c3state.host_player_id) :=
  startGame_guard c3state

/-- C3 counterexample: in the reachable state c3state the roster has exactly
one player, yet startGame (invoked by the host, player 1) emits a start_game
event, refuting the claim that startGame is a no-op for rosters of size 0
or 1. -/
theorem startGame_emits_with_one_player :
    c3state.players.length = 1
    ∧ (startGame c3state).1 = [Emit.start_game 42] :=
  ⟨rfl, rfl⟩

/-- C10 amended: toggleReady is a no-op when the local player id is unassigned;
when it is assigned and nonzero, the optimistic update sets the ready flag of
exactly the roster entries whose id equals the local player id to the negation
of the locally cached isReady flag (a true flip of the entry only when the
cache agrees with the roster), negates the cached flag, emits toggle_ready with
the new value, and leaves every other entry unchanged. -/
theorem toggleReady_update (s : RoomState) :
    (s.playerId = none → toggleReady s = ([], s))
    ∧ (∀ pid, s.playerId = some pid → pid ≠ 0 →
        (toggleReady s).1
            = [Emit.toggle_ready s.gameId pid (!s.isReady)]
        ∧ ((toggleReady s).2).isReady = (!s.isReady)
        ∧ ((toggleReady s).2).players
            = s.players.map (fun p =>
                if p.id = pid then { p with ready := !s.isReady } else p)
        ∧ ∀ p ∈ s.players, p.id ≠ pid →
            p ∈ ((toggleReady s).2).players) := by
  constructor
  · intro hp
    simp [toggleReady, hp]
  · intro pid hp h0
    refine ⟨by simp [toggleReady, hp, h0], by simp [toggleReady, hp, h0],
      by simp [toggleReady, hp, h0], ?_⟩
    intro p hmem hne
    have h := List.mem_map_of_mem (fun q =>
        if q.id = pid then { q with ready := !s.isReady } else q) hmem
    simp only [if_neg hne] at h
    simpa [toggleReady, hp, h0] using h

/-- C10 witness: the update characterization instantiated at the reachable
state c10state with local player id 1. -/
theorem toggleReady_update_witness :
    (c10state.playerId = some 1 ∧ (1 : Int) ≠ 0)
    ∧ ((toggleReady c10state).1
          = [Emit.toggle_ready c10state.gameId 1 (!c10state.isReady)]
       ∧ ((toggleReady c10state).2).isReady = (!c10state.isReady)
       ∧ ((toggleReady c10state).2).players
           = c10state.players.map (fun p =>
               if p.id = 1 then { p with ready := !c10state.isReady } else p)
       ∧ ∀ p ∈ c10state.players, p.id ≠ 1 →
           p ∈ ((toggleReady c10state).2).players) :=
  ⟨⟨rfl, by decide⟩, (toggleReady_update c10state).2 1 rfl (by decide)⟩

/-- C10 counterexample: in the reachable state c10state the roster entry for
the local player (id 1) is ready while the cached isReady flag is false;
invoking toggleReady leaves that entry's ready flag at true instead of flipping
it to false, refuting the claim that the optimistic update flips the ready flag
of the matching roster entry. -/
theorem toggleReady_not_a_flip :
    c10state.playerId = some 1
    ∧ c10state.isReady = false
    ∧ c10state.players = [{ id := 1, name := "Alex", ready := true }]
    ∧ ((toggleReady c10state).2).players
        = [{ id := 1, name := "Alex", ready := true }] :=
  ⟨rfl, rfl, rfl, rfl⟩

/-- C8: after a fetchGames outcome the lobby games state is always a
renderable list: the fetched open-games list on success, the empty list when
the backend returns no games field, and the empty list on failure instead of a
propagated error. -/
theorem fetchGames_renderable (s : LobbyState) (r : FetchOutcome) :
    (∀ gs, r = Except.ok (some gs) → (fetchGames s r).games = gs)
    ∧ (r = Except.ok none → (fetchGames s r).games = [])
    ∧ (∀ e, r = Except.error e → (fetchGames s r).games = []) := by
  refine ⟨?_, ?_, ?_⟩
  · intro gs h
    subst h
    rfl
  · intro h
    subst h
    rfl
  · intro e h
    subst h
    rfl

/-- C8 witness: a failed fetch resets the (previously nonempty) games list of
lobby0 to the empty list. -/
theorem fetchGames_renderable_witness :
    (fetchGames lobby0 (Except.error ())).games = [] :=
  (fetchGames_renderable lobby0 (Except.error ())).2.2 () rfl

end PartyGame
